import Mathlib

/-
Verification of the FX hedging analyzer core (fx_data_fetcher.py,
fx_data_simulator.py, hedging_analyzer.py) over an exact-rational shallow
embedding: Python floats become rationals, Python round(x, n) becomes
half-up decimal rounding, dictionary lookups become Option, and raised
exceptions become Except values.
-/

namespace FXHedging

/-- Models Python round(x, n): round to n decimal places (half away from
zero ties are modelled as half-up on rationals). -/
def roundTo (n : ℕ) (x : ℚ) : ℚ :=
  ((round (x * (10 : ℚ) ^ n) : ℤ) : ℚ) / (10 : ℚ) ^ n

/-- The denominator 1 + foreign_rate * t of the interest-rate-parity
formula, with t = days / 365 (fx_data_fetcher.py lines 84-85). -/
def cfrDenom (foreignRate : ℚ) (days : ℤ) : ℚ :=
  1 + foreignRate * ((days : ℚ) / 365)

/-- The unrounded forward rate spot * ((1 + domestic*t) / (1 + foreign*t)),
t = days / 365 (fx_data_fetcher.py line 85). -/
def forwardRateRaw (spot domesticRate foreignRate : ℚ) (days : ℤ) : ℚ :=
  spot * ((1 + domesticRate * ((days : ℚ) / 365)) / cfrDenom foreignRate days)

/-- FXDataFetcher.calculate_forward_rate (fx_data_fetcher.py lines 68-86;
identical in fx_data_simulator.py lines 55-60): interest-rate-parity
forward rounded to 4 decimal places. -/
def calculate_forward_rate (spot domesticRate foreignRate : ℚ) (days : ℤ) : ℚ :=
  roundTo 4 (forwardRateRaw spot domesticRate foreignRate days)

/-- One row of a forward curve (the dict appended per tenor in
build_forward_curve, fx_data_fetcher.py lines 136-143). Dates are day
indices; the source formats (as_of + days) as a yyyy-mm-dd string. -/
structure ForwardCurvePoint where
  pair : String
  tenor : String
  days : ℤ
  forwardRate : ℚ
  forwardPoints : ℚ
  settlementDate : ℤ
deriving DecidableEq, Repr

/-- The fixed tenor table of build_forward_curve (fx_data_fetcher.py
lines 104-113). -/
def tenorList : List (String × ℤ) :=
  [("Spot", 0), ("1W", 7), ("1M", 30), ("2M", 60),
   ("3M", 90), ("6M", 180), ("9M", 270), ("1Y", 365)]

/-- The eight fixed tenor labels, in curve order. -/
def tenorLabels : List String :=
  ["Spot", "1W", "1M", "2M", "3M", "6M", "9M", "1Y"]

/-- The body of the per-tenor loop of build_forward_curve
(fx_data_fetcher.py lines 117-143): Spot copies the spot rate with zero
points; other tenors look up domestic/foreign rates by the direction rule
(quote == USD picks USD as domestic and the base currency as foreign,
otherwise the quote currency is domestic and USD is foreign) and a failed
dictionary lookup (Python KeyError) yields none. -/
def mkForwardPoint (interestRates : String → Option ℚ) (base quote : String)
    (spot : ℚ) (asOf : ℤ) (tn : String × ℤ) : Option ForwardCurvePoint :=
  if tn.2 = 0 then
    some { pair := base ++ "/" ++ quote, tenor := tn.1, days := tn.2,
           forwardRate := spot, forwardPoints := 0,
           settlementDate := asOf + tn.2 }
  else do
    let dom ← if quote = "USD" then interestRates "USD" else interestRates quote
    let frn ← if quote = "USD" then interestRates base else interestRates "USD"
    let fr := calculate_forward_rate spot dom frn tn.2
    some { pair := base ++ "/" ++ quote, tenor := tn.1, days := tn.2,
           forwardRate := fr,
           forwardPoints := roundTo 2 ((fr - spot) * 10000),
           settlementDate := asOf + tn.2 }

/-- The accumulation loop of build_forward_curve: rows are appended in
tenor order and a raised KeyError aborts the whole construction. -/
def buildLoop {α β : Type} (f : α → Option β) : List α → Option (List β)
  | [] => some []
  | a :: l => do
    let b ← f a
    let bs ← buildLoop f l
    pure (b :: bs)

/-- FXDataFetcher.build_forward_curve after the pair string has been split
into base and quote (fx_data_fetcher.py lines 100-145; identical in
fx_data_simulator.py lines 62-106). The as_of argument models the
datetime.now() reading the source uses for settlement dates, and the
rate table models the self.interest_rates dictionary. -/
def build_forward_curve_split (base quote : String) (spot : ℚ)
    (interestRates : String → Option ℚ) (asOf : ℤ) :
    Option (List ForwardCurvePoint) :=
  buildLoop (mkForwardPoint interestRates base quote spot asOf) tenorList

/-- FXDataFetcher.build_forward_curve on the raw pair string: the source
splits on the slash and indexes parts 0 and 1 (fx_data_fetcher.py
lines 100-101); a missing part is a Python IndexError, modelled as none. -/
def build_forward_curve (pair : String) (spot : ℚ)
    (interestRates : String → Option ℚ) (asOf : ℤ) :
    Option (List ForwardCurvePoint) :=
  match (pair.splitOn "/").get? 0, (pair.splitOn "/").get? 1 with
  | some base, some quote => build_forward_curve_split base quote spot interestRates asOf
  | _, _ => none

/-- The self.interest_rates dictionary from the constructors of
FXDataFetcher (lines 30-38) and FXDataSimulator (lines 28-36). -/
def defaultInterestRates : String → Option ℚ := fun c =>
  if c = "USD" then some 0.0450
  else if c = "EUR" then some 0.0300
  else if c = "GBP" then some 0.0475
  else if c = "JPY" then some 0.0010
  else if c = "CAD" then some 0.0375
  else if c = "AUD" then some 0.0400
  else if c = "CHF" then some 0.0125
  else none

/-- Model of the ASCII action of Python str.lower, used on market_view
(hedging_analyzer.py lines 181 and 186); written over the character list
so it is kernel-evaluable. -/
def asciiLowerChar (c : Char) : Char :=
  if c.isUpper then Char.ofNat (c.toNat + 32) else c

/-- Model of Python str.lower on the ASCII strings the analyzer uses. -/
def asciiLower (s : String) : String :=
  String.mk (s.data.map asciiLowerChar)

/-- The exceptions HedgingAnalyzer.calculate_hedge_cost can raise:
the explicit ValueError for a missing tenor (line 43), the IndexError
from indexing an empty Spot selection (line 46), and the
ZeroDivisionError from the premium/discount formula (line 54). -/
inductive HedgeError where
  | tenorNotFound
  | noSpotRow
  | zeroSpotRate
deriving DecidableEq, Repr

/-- The dictionary returned by calculate_hedge_cost
(hedging_analyzer.py lines 56-69). -/
structure HedgeInfo where
  pair : String
  notional : ℚ
  hedgeRatio : ℚ
  hedgedAmount : ℚ
  unhedgedAmount : ℚ
  tenor : String
  settlementDate : ℤ
  spotRate : ℚ
  forwardRate : ℚ
  forwardPoints : ℚ
  premiumDiscountPct : ℚ
  lockedInRate : ℚ
deriving DecidableEq, Repr

/-- The pair identity the analyzer takes from the first row of its curve
(hedging_analyzer.py line 24). The Python constructor would raise on an
empty curve; the empty default is never reached in any analysis below,
since every operation first requires a row lookup to succeed. -/
def pairOf (curve : List ForwardCurvePoint) : String :=
  match curve.head? with
  | some p => p.pair
  | none => ""

/-- HedgingAnalyzer.calculate_hedge_cost (hedging_analyzer.py
lines 26-69): select the rows matching the tenor (empty selection raises
the tenor ValueError), read the Spot row rate, and assemble the hedge
record; the premium/discount percentage divides by the spot rate. -/
def calculate_hedge_cost (curve : List ForwardCurvePoint) (notional : ℚ)
    (tenor : String) (hedgeRatio : ℚ) : Except HedgeError HedgeInfo :=
  match (curve.filter (fun p => p.tenor == tenor)).head? with
  | none => .error .tenorNotFound
  | some td =>
    match (curve.filter (fun p => p.tenor == "Spot")).head? with
    | none => .error .noSpotRow
    | some sd =>
      if sd.forwardRate = 0 then .error .zeroSpotRate
      else
        .ok { pair := pairOf curve, notional := notional,
              hedgeRatio := hedgeRatio,
              hedgedAmount := notional * hedgeRatio,
              unhedgedAmount := notional * (1 - hedgeRatio),
              tenor := tenor, settlementDate := td.settlementDate,
              spotRate := sd.forwardRate, forwardRate := td.forwardRate,
              forwardPoints := td.forwardPoints,
              premiumDiscountPct :=
                roundTo 4 (((td.forwardRate - sd.forwardRate) / sd.forwardRate) * 100),
              lockedInRate := td.forwardRate }

/-- One row of the scenario-analysis output
(hedging_analyzer.py lines 121-128). -/
structure ScenarioRow where
  futureSpot : ℚ
  spotChangePct : ℚ
  hedgedPnL : ℚ
  unhedgedPnL : ℚ
  totalPnL : ℚ
  effectiveRate : ℚ
deriving DecidableEq, Repr

/-- The body of the scenario loop (hedging_analyzer.py lines 102-128). -/
def scenarioRow (hinfo : HedgeInfo) (futureSpot : ℚ) : ScenarioRow :=
  let hedgedPnL := hinfo.hedgedAmount * (futureSpot - hinfo.forwardRate)
  let unhedgedPnL := hinfo.unhedgedAmount * (futureSpot - hinfo.spotRate)
  let totalPnL := hedgedPnL + unhedgedPnL
  let effectiveRate :=
    if hinfo.notional > 0 then
      hinfo.forwardRate * hinfo.hedgeRatio + futureSpot * (1 - hinfo.hedgeRatio)
    else futureSpot
  let spotChangePct := ((futureSpot - hinfo.spotRate) / hinfo.spotRate) * 100
  { futureSpot := roundTo 4 futureSpot,
    spotChangePct := roundTo 2 spotChangePct,
    hedgedPnL := roundTo 2 hedgedPnL,
    unhedgedPnL := roundTo 2 unhedgedPnL,
    totalPnL := roundTo 2 totalPnL,
    effectiveRate := roundTo 4 effectiveRate }

/-- HedgingAnalyzer.scenario_analysis (hedging_analyzer.py lines 71-130):
errors from calculate_hedge_cost propagate; an omitted scenario list
defaults to the five multiplicative bumps of current spot. -/
def scenario_analysis (curve : List ForwardCurvePoint) (notional : ℚ)
    (tenor : String) (hedgeRatio : ℚ) (spotScenarios : Option (List ℚ)) :
    Except HedgeError (List ScenarioRow) :=
  match calculate_hedge_cost curve notional tenor hedgeRatio with
  | .error e => .error e
  | .ok hinfo =>
    let scens := spotScenarios.getD
      [hinfo.spotRate * 0.90, hinfo.spotRate * 0.95, hinfo.spotRate,
       hinfo.spotRate * 1.05, hinfo.spotRate * 1.10]
    .ok (scens.map (scenarioRow hinfo))

/-- The base currency the analyzer extracts from its pair string
(hedging_analyzer.py lines 185, 190, 203: self.pair.split('/')[0]). -/
def baseCurrencyOf (pair : String) : String :=
  ((pair.splitOn "/").get? 0).getD ""

/-- The bullish rationale string (hedging_analyzer.py line 185). -/
def bullishRationale (base : String) : String :=
  "With a bullish view on " ++ base ++
    ", consider a 50% hedge to maintain some upside exposure while protecting against adverse moves."

/-- The bearish rationale string (hedging_analyzer.py line 190). -/
def bearishRationale (base : String) : String :=
  "With a bearish view on " ++ base ++
    ", consider a 100% hedge to lock in current forward rate and eliminate downside risk."

/-- The neutral rationale string (hedging_analyzer.py line 194). -/
def neutralRationale : String :=
  "With a neutral market view, consider a 75% hedge to protect core exposure while maintaining some flexibility."

/-- The recommendation record (hedging_analyzer.py lines 198-204). The
source additionally formats three presentation strings (the percent
label, the formatted premium/discount, and the trade-action sentence)
from the same ratio, pair and hedge-detail fields recorded here; that
float-to-text formatting carries no further data and is not modelled. -/
structure RecommendationResult where
  recommendedRatio : ℚ
  rationale : String
  hedgeDetails : HedgeInfo
deriving DecidableEq, Repr

/-- HedgingAnalyzer.generate_hedge_recommendation (hedging_analyzer.py
lines 163-204): a first calculate_hedge_cost call at the default ratio
1.0 (its spot and forward feed only the presentation strings, but its
exceptions propagate), then the case-insensitive view policy, then
calculate_hedge_cost again at the recommended ratio. -/
def generate_hedge_recommendation (curve : List ForwardCurvePoint)
    (notional : ℚ) (tenor marketView : String) :
    Except HedgeError RecommendationResult :=
  match calculate_hedge_cost curve notional tenor 1 with
  | .error e => .error e
  | .ok _hinfo =>
    let base := baseCurrencyOf (pairOf curve)
    let recommendedRatio : ℚ :=
      if asciiLower marketView = "bullish" then 0.50
      else if asciiLower marketView = "bearish" then 1.00
      else 0.75
    let rationale : String :=
      if asciiLower marketView = "bullish" then bullishRationale base
      else if asciiLower marketView = "bearish" then bearishRationale base
      else neutralRationale
    match calculate_hedge_cost curve notional tenor recommendedRatio with
    | .error e => .error e
    | .ok details =>
      .ok { recommendedRatio := recommendedRatio, rationale := rationale,
            hedgeDetails := details }

/-! ### Concrete data for witnesses -/

/-- The sample USD/CAD curve from the demonstration block of
hedging_analyzer.py (lines 209-217), with the as-of date as day 0. -/
def sampleSpotPoint : ForwardCurvePoint :=
  { pair := "USD/CAD", tenor := "Spot", days := 0, forwardRate := 1.3450,
    forwardPoints := 0, settlementDate := 0 }

/-- The 6M row of the sample curve. -/
def sampleSixMPoint : ForwardCurvePoint :=
  { pair := "USD/CAD", tenor := "6M", days := 180, forwardRate := 1.3550,
    forwardPoints := 100, settlementDate := 180 }

/-- The full sample curve from hedging_analyzer.py lines 209-217. -/
def sampleCurve : List ForwardCurvePoint :=
  [sampleSpotPoint,
   { pair := "USD/CAD", tenor := "1W", days := 7, forwardRate := 1.3455,
     forwardPoints := 5, settlementDate := 7 },
   { pair := "USD/CAD", tenor := "1M", days := 30, forwardRate := 1.3468,
     forwardPoints := 18, settlementDate := 30 },
   { pair := "USD/CAD", tenor := "2M", days := 60, forwardRate := 1.3485,
     forwardPoints := 35, settlementDate := 60 },
   { pair := "USD/CAD", tenor := "3M", days := 90, forwardRate := 1.3502,
     forwardPoints := 52, settlementDate := 90 },
   sampleSixMPoint,
   { pair := "USD/CAD", tenor := "9M", days := 270, forwardRate := 1.3598,
     forwardPoints := 148, settlementDate := 270 },
   { pair := "USD/CAD", tenor := "1Y", days := 365, forwardRate := 1.3645,
     forwardPoints := 195, settlementDate := 365 }]

/-- The USD/CAD curve built from the December 2024 simulator spot 1.4320
and the default rate table, as of day 0. -/
def usdCadCurve : List ForwardCurvePoint :=
  (build_forward_curve_split "USD" "CAD" 1.4320 defaultInterestRates 0).getD []

/-- A placeholder row used only as the default of list indexing in
witness statements; it never influences a proof. -/
def dummyPoint : ForwardCurvePoint :=
  { pair := "", tenor := "", days := 0, forwardRate := 0,
    forwardPoints := 0, settlementDate := 0 }

/-! ### Helper lemmas -/

lemma opt_eq_some_getD {α : Type} (o : Option α) (d : α) (h : o.isSome) :
    o = some (o.getD d) := by
  cases o with
  | none => simp at h
  | some a => rfl

lemma roundTo_eval (n : ℕ) (x : ℚ) (k : ℤ)
    (h1 : (k : ℚ) ≤ x * (10 : ℚ) ^ n + 1 / 2)
    (h2 : x * (10 : ℚ) ^ n + 1 / 2 < (k : ℚ) + 1) :
    roundTo n x = (k : ℚ) / (10 : ℚ) ^ n := by
  rw [roundTo, round_eq]
  congr 1
  exact_mod_cast Int.floor_eq_iff.mpr ⟨h1, by exact_mod_cast h2⟩

lemma roundTo_mono (n : ℕ) {x y : ℚ} (h : x ≤ y) : roundTo n x ≤ roundTo n y := by
  unfold roundTo
  have hp : (0 : ℚ) < (10 : ℚ) ^ n := by positivity
  apply div_le_div_of_nonneg_right ?_ hp.le
  case _ =>
    have hm : x * (10 : ℚ) ^ n ≤ y * (10 : ℚ) ^ n :=
      mul_le_mul_of_nonneg_right h (le_of_lt hp)
    have : round (x * (10 : ℚ) ^ n) ≤ round (y * (10 : ℚ) ^ n) := by
      rw [round_eq, round_eq]
      exact Int.floor_le_floor (by linarith)
    exact_mod_cast this

lemma buildLoop_forall₂ {α β : Type} {f : α → Option β} :
    ∀ {l : List α} {res : List β}, buildLoop f l = some res →
      List.Forall₂ (fun a b => f a = some b) l res := by
  intro l
  induction l with
  | nil =>
    intro res h
    simp only [buildLoop] at h
    cases h
    exact List.Forall₂.nil
  | cons a l ih =>
    intro res h
    simp only [buildLoop, Option.bind_eq_bind] at h
    rcases Option.bind_eq_some.mp h with ⟨b, hb, h2⟩
    rcases Option.bind_eq_some.mp h2 with ⟨bs, hbs, h3⟩
    cases h3
    exact List.Forall₂.cons hb (ih hbs)

lemma forall₂_mem_right {α β : Type} {R : α → β → Prop} :
    ∀ {l : List α} {res : List β}, List.Forall₂ R l res →
      ∀ b ∈ res, ∃ a ∈ l, R a b := by
  intro l res h
  induction h with
  | nil => intro b hb; cases hb
  | @cons a b l res hR _ ih =>
    intro c hc
    rcases List.mem_cons.mp hc with rfl | hc
    · exact ⟨a, List.mem_cons_self a l, hR⟩
    · rcases ih c hc with ⟨a2, ha2, hRa2⟩
      exact ⟨a2, List.mem_cons_of_mem a ha2, hRa2⟩

lemma forall₂_map_congr {α β γ : Type} {R : α → β → Prop} {g : β → γ}
    {h : α → γ} (H : ∀ a b, R a b → g b = h a) :
    ∀ {l : List α} {res : List β}, List.Forall₂ R l res →
      res.map g = l.map h := by
  intro l res hF
  induction hF with
  | nil => rfl
  | @cons a b l res hR _ ih => simp [H a b hR, ih]

lemma mkForwardPoint_basic {interestRates : String → Option ℚ}
    {base quote : String} {spot : ℚ} {asOf : ℤ} {tn : String × ℤ}
    {pt : ForwardCurvePoint}
    (hmk : mkForwardPoint interestRates base quote spot asOf tn = some pt) :
    pt.tenor = tn.1 ∧ pt.days = tn.2 ∧ pt.settlementDate = asOf + tn.2 ∧
      pt.pair = base ++ "/" ++ quote := by
  rw [mkForwardPoint] at hmk
  by_cases h0 : tn.2 = 0
  · rw [if_pos h0] at hmk
    obtain rfl := Option.some.inj hmk
    exact ⟨rfl, rfl, rfl, rfl⟩
  · rw [if_neg h0] at hmk
    by_cases hq : quote = "USD"
    · simp only [if_pos hq, Option.bind_eq_bind] at hmk
      rcases Option.bind_eq_some.mp hmk with ⟨dom, _, hmk2⟩
      rcases Option.bind_eq_some.mp hmk2 with ⟨frn, _, hmk3⟩
      obtain rfl := Option.some.inj hmk3
      exact ⟨rfl, rfl, rfl, rfl⟩
    · simp only [if_neg hq, Option.bind_eq_bind] at hmk
      rcases Option.bind_eq_some.mp hmk with ⟨dom, _, hmk2⟩
      rcases Option.bind_eq_some.mp hmk2 with ⟨frn, _, hmk3⟩
      obtain rfl := Option.some.inj hmk3
      exact ⟨rfl, rfl, rfl, rfl⟩

lemma mkForwardPoint_nonspot {interestRates : String → Option ℚ}
    {base quote : String} {spot : ℚ} {asOf : ℤ} {tn : String × ℤ}
    {pt : ForwardCurvePoint} (h0 : tn.2 ≠ 0)
    (hmk : mkForwardPoint interestRates base quote spot asOf tn = some pt) :
    ∃ dom frn,
      ((quote = "USD" ∧ interestRates "USD" = some dom ∧
          interestRates base = some frn) ∨
       (quote ≠ "USD" ∧ interestRates quote = some dom ∧
          interestRates "USD" = some frn)) ∧
      pt.forwardRate = calculate_forward_rate spot dom frn pt.days ∧
      pt.forwardPoints = roundTo 2 ((pt.forwardRate - spot) * 10000) := by
  rw [mkForwardPoint, if_neg h0] at hmk
  by_cases hq : quote = "USD"
  · simp only [if_pos hq, Option.bind_eq_bind] at hmk
    rcases Option.bind_eq_some.mp hmk with ⟨dom, hdom, hmk2⟩
    rcases Option.bind_eq_some.mp hmk2 with ⟨frn, hfrn, hmk3⟩
    obtain rfl := Option.some.inj hmk3
    exact ⟨dom, frn, Or.inl ⟨hq, hdom, hfrn⟩, rfl, rfl⟩
  · simp only [if_neg hq, Option.bind_eq_bind] at hmk
    rcases Option.bind_eq_some.mp hmk with ⟨dom, hdom, hmk2⟩
    rcases Option.bind_eq_some.mp hmk2 with ⟨frn, hfrn, hmk3⟩
    obtain rfl := Option.some.inj hmk3
    exact ⟨dom, frn, Or.inr ⟨hq, hdom, hfrn⟩, rfl, rfl⟩

/-- The Spot row every built curve starts with (the days == 0 branch of
the tenor loop, fx_data_fetcher.py lines 118-120). -/
def spotPointOf (base quote : String) (spot : ℚ) (asOf : ℤ) :
    ForwardCurvePoint :=
  { pair := base ++ "/" ++ quote, tenor := "Spot", days := 0,
    forwardRate := spot, forwardPoints := 0, settlementDate := asOf + 0 }

lemma build_head_spot {base quote : String} {spot : ℚ}
    {interestRates : String → Option ℚ} {asOf : ℤ}
    {curve : List ForwardCurvePoint}
    (hb : build_forward_curve_split base quote spot interestRates asOf =
      some curve) :
    ∃ rest, curve = spotPointOf base quote spot asOf :: rest := by
  rw [build_forward_curve_split, tenorList] at hb
  rw [show buildLoop (mkForwardPoint interestRates base quote spot asOf)
        (("Spot", (0 : ℤ)) ::
          [("1W", 7), ("1M", 30), ("2M", 60), ("3M", 90),
           ("6M", 180), ("9M", 270), ("1Y", 365)]) =
      (mkForwardPoint interestRates base quote spot asOf ("Spot", 0)).bind
        (fun b =>
          (buildLoop (mkForwardPoint interestRates base quote spot asOf)
            [("1W", 7), ("1M", 30), ("2M", 60), ("3M", 90),
             ("6M", 180), ("9M", 270), ("1Y", 365)]).bind
          (fun bs => some (b :: bs))) from rfl] at hb
  rcases Option.bind_eq_some.mp hb with ⟨p0, hp0, hb2⟩
  rcases Option.bind_eq_some.mp hb2 with ⟨ps, _, hb3⟩
  obtain rfl := Option.some.inj hb3
  rw [mkForwardPoint, if_pos rfl] at hp0
  obtain rfl := Option.some.inj hp0
  exact ⟨ps, rfl⟩

lemma build_forall₂ {base quote : String} {spot : ℚ}
    {interestRates : String → Option ℚ} {asOf : ℤ}
    {curve : List ForwardCurvePoint}
    (hb : build_forward_curve_split base quote spot interestRates asOf =
      some curve) :
    List.Forall₂
      (fun tn pt => mkForwardPoint interestRates base quote spot asOf tn = some pt)
      tenorList curve :=
  buildLoop_forall₂ hb

lemma build_tenor_map {base quote : String} {spot : ℚ}
    {interestRates : String → Option ℚ} {asOf : ℤ}
    {curve : List ForwardCurvePoint}
    (hb : build_forward_curve_split base quote spot interestRates asOf =
      some curve) :
    curve.map (fun pt => pt.tenor) = tenorLabels := by
  have h := forall₂_map_congr (g := fun pt : ForwardCurvePoint => pt.tenor)
    (h := fun tn : String × ℤ => tn.1)
    (fun tn pt hmk => (mkForwardPoint_basic hmk).1) (build_forall₂ hb)
  rw [h]
  rfl

lemma chc_eq_ok {curve : List ForwardCurvePoint} {notional : ℚ}
    {tenor : String} {hr : ℚ} {td sd : ForwardCurvePoint}
    (htd : (curve.filter (fun p => p.tenor == tenor)).head? = some td)
    (hsd : (curve.filter (fun p => p.tenor == "Spot")).head? = some sd)
    (hz : sd.forwardRate ≠ 0) :
    calculate_hedge_cost curve notional tenor hr =
      .ok { pair := pairOf curve, notional := notional, hedgeRatio := hr,
            hedgedAmount := notional * hr,
            unhedgedAmount := notional * (1 - hr),
            tenor := tenor, settlementDate := td.settlementDate,
            spotRate := sd.forwardRate, forwardRate := td.forwardRate,
            forwardPoints := td.forwardPoints,
            premiumDiscountPct :=
              roundTo 4 (((td.forwardRate - sd.forwardRate) / sd.forwardRate) * 100),
            lockedInRate := td.forwardRate } := by
  simp only [calculate_hedge_cost, htd, hsd]
  rw [if_neg hz]

/-! ### Claim theorems -/

/-- Claim C2: for every spot rate, domestic rate, foreign rate and day
count, calculate_forward_rate returns the simple-interest
covered-interest-parity forward spot * (1 + domestic*t) / (1 + foreign*t)
with t = days / 365, rounded to 4 decimal places. -/
theorem fx_C2 (spot domesticRate foreignRate : ℚ) (days : ℤ) :
    calculate_forward_rate spot domesticRate foreignRate days =
      roundTo 4 (spot * (1 + domesticRate * ((days : ℚ) / 365)) /
        (1 + foreignRate * ((days : ℚ) / 365))) := by
  rw [calculate_forward_rate, forwardRateRaw, cfrDenom, mul_div_assoc]

/-- Claim C8 counterexample: with equal rates the function returns the
spot rounded to 4 decimals, which differs from a spot carrying more
precision: calculate_forward_rate(1.00005, 0.01, 0.01, 365) = 1.0001,
not 1.00005. -/
theorem fx_C8_counterexample :
    calculate_forward_rate 1.00005 0.01 0.01 365 ≠ 1.00005 := by
  have hraw : forwardRateRaw 1.00005 0.01 0.01 365 = 1.00005 := by
    rw [forwardRateRaw, cfrDenom]
    norm_num
  rw [calculate_forward_rate, hraw,
    roundTo_eval 4 _ 10001 (by norm_num) (by norm_num)]
  norm_num

/-- Claim C8 as amended: when the shared denominator 1 + r*days/365 is
nonzero, calculate_forward_rate(spot, r, r, days) collapses to the spot
rate rounded to 4 decimal places (hence to spot itself exactly when spot
is already a 4-decimal quantity). -/
theorem fx_C8_amended (spot r : ℚ) (days : ℤ) (h : cfrDenom r days ≠ 0) :
    calculate_forward_rate spot r r days = roundTo 4 spot := by
  rw [calculate_forward_rate, forwardRateRaw,
    show (1 + r * ((days : ℚ) / 365)) = cfrDenom r days from rfl,
    div_self h, mul_one]

/-- Witness for the amended claim C8 at spot 1.4320, rate 0.045,
days 180. -/
theorem fx_C8_witness :
    cfrDenom 0.045 180 ≠ 0 ∧
      calculate_forward_rate 1.4320 0.045 0.045 180 = roundTo 4 1.4320 :=
  ⟨by norm_num [cfrDenom],
   fx_C8_amended 1.4320 0.045 180 (by norm_num [cfrDenom])⟩

/-- Claim C9 counterexample: spot 1, domestic 1/100000, foreign 0,
days 1 satisfies spot > 0, days > 0 and domestic > foreign, yet the
4-decimal rounding collapses the tiny premium and the returned forward
is not strictly greater than spot. -/
theorem fx_C9_counterexample :
    (0 : ℚ) < 1 ∧ (0 : ℤ) < 1 ∧ (0 : ℚ) < 1 / 100000 ∧
      ¬(1 < calculate_forward_rate 1 (1 / 100000) 0 1) := by
  refine ⟨by norm_num, by norm_num, by norm_num, ?_⟩
  have hraw : forwardRateRaw 1 (1 / 100000) 0 1 = 1 + 1 / 36500000 := by
    rw [forwardRateRaw, cfrDenom]
    norm_num
  rw [calculate_forward_rate, hraw,
    roundTo_eval 4 _ 10000 (by norm_num) (by norm_num)]
  norm_num

/-- Claim C9 as amended: for positive spot, positive days and positive
parity denominator, the pre-rounding forward value is strictly above
spot when domestic > foreign and strictly below when domestic < foreign;
after the final 4-decimal rounding only the non-strict comparison with
the 4-decimal rounding of spot survives. -/
theorem fx_C9_amended (spot dom frn : ℚ) (days : ℤ) (hs : 0 < spot)
    (hd : 0 < days) (hden : 0 < cfrDenom frn days) :
    ((frn < dom → spot < forwardRateRaw spot dom frn days) ∧
     (dom < frn → forwardRateRaw spot dom frn days < spot)) ∧
    ((frn < dom → roundTo 4 spot ≤ calculate_forward_rate spot dom frn days) ∧
     (dom < frn → calculate_forward_rate spot dom frn days ≤ roundTo 4 spot)) := by
  have ht : (0 : ℚ) < (days : ℚ) / 365 := by
    apply div_pos _ (by norm_num)
    exact_mod_cast hd
  have key1 : frn < dom → spot < forwardRateRaw spot dom frn days := by
    intro hlt
    rw [forwardRateRaw, lt_mul_iff_one_lt_right hs, one_lt_div hden, cfrDenom]
    have := mul_lt_mul_of_pos_right hlt ht
    linarith
  have key2 : dom < frn → forwardRateRaw spot dom frn days < spot := by
    intro hlt
    rw [forwardRateRaw, mul_lt_iff_lt_one_right hs, div_lt_one hden, cfrDenom]
    have := mul_lt_mul_of_pos_right hlt ht
    linarith
  refine ⟨⟨key1, key2⟩, ⟨?_, ?_⟩⟩
  · intro hlt
    rw [calculate_forward_rate]
    exact roundTo_mono 4 (key1 hlt).le
  · intro hlt
    rw [calculate_forward_rate]
    exact roundTo_mono 4 (key2 hlt).le

/-- Witness for the amended claim C9 at the USD/CAD 6M data of the spec:
domestic 0.0375 < foreign 0.0450 puts the raw forward strictly below the
spot 1.4320. -/
theorem fx_C9_witness :
    (0 : ℚ) < 1.4320 ∧ (0 : ℤ) < 180 ∧ 0 < cfrDenom 0.045 180 ∧
      forwardRateRaw 1.4320 0.0375 0.045 180 < 1.4320 :=
  ⟨by norm_num, by norm_num, by norm_num [cfrDenom],
   ((fx_C9_amended 1.4320 0.0375 0.045 180 (by norm_num) (by norm_num)
      (by norm_num [cfrDenom])).1).2 (by norm_num)⟩

/-- Claim C10: the parity denominator 1 + foreign_rate * days/365 is
strictly positive, hence nonzero, whenever the foreign rate and day
count are nonnegative, and calculate_forward_rate is total, equal to the
rounded quotient by that denominator, with no guard in the code. -/
theorem fx_C10 (spot dom frn : ℚ) (days : ℤ) (hf : 0 ≤ frn)
    (hd : 0 ≤ days) :
    0 < cfrDenom frn days ∧ cfrDenom frn days ≠ 0 ∧
      calculate_forward_rate spot dom frn days =
        roundTo 4 (spot * ((1 + dom * ((days : ℚ) / 365)) / cfrDenom frn days)) := by
  have hpos : 0 < cfrDenom frn days := by
    rw [cfrDenom]
    have hnn : (0 : ℚ) ≤ frn * ((days : ℚ) / 365) :=
      mul_nonneg hf (div_nonneg (by exact_mod_cast hd) (by norm_num))
    linarith
  exact ⟨hpos, ne_of_gt hpos, rfl⟩

/-- Witness for claim C10 at the USD foreign rate 0.045 and 180 days. -/
theorem fx_C10_witness :
    (0 : ℚ) ≤ 0.045 ∧ (0 : ℤ) ≤ 180 ∧
      (0 < cfrDenom 0.045 180 ∧ cfrDenom 0.045 180 ≠ 0 ∧
        calculate_forward_rate 1.4320 0.0375 0.045 180 =
          roundTo 4 (1.4320 * ((1 + 0.0375 * ((180 : ℤ) / 365 : ℚ)) /
            cfrDenom 0.045 180))) :=
  ⟨by norm_num, by norm_num,
   fx_C10 1.4320 0.0375 0.045 180 (by norm_num) (by norm_num)⟩

/-- Claim C1: every non-Spot point of a built curve carries the forward
rate computed by calculate_forward_rate with the direction-dependent rate
assignment: when the quote currency is USD the domestic rate is the USD
rate and the foreign rate is the base currency rate, otherwise the
domestic rate is the quote currency rate and the foreign rate is the USD
rate; the point also carries the pip-scaled forward points. -/
theorem fx_C1 (base quote : String) (spot : ℚ) (rates : String → Option ℚ)
    (asOf : ℤ) (curve : List ForwardCurvePoint) (pt : ForwardCurvePoint)
    (hb : build_forward_curve_split base quote spot rates asOf = some curve)
    (hmem : pt ∈ curve) (hns : pt.tenor ≠ "Spot") :
    ∃ dom frn,
      ((quote = "USD" ∧ rates "USD" = some dom ∧ rates base = some frn) ∨
       (quote ≠ "USD" ∧ rates quote = some dom ∧ rates "USD" = some frn)) ∧
      pt.forwardRate = calculate_forward_rate spot dom frn pt.days ∧
      pt.forwardPoints = roundTo 2 ((pt.forwardRate - spot) * 10000) := by
  obtain ⟨tn, htn, hmk⟩ := forall₂_mem_right (build_forall₂ hb) pt hmem
  obtain ⟨hten, _, _, _⟩ := mkForwardPoint_basic hmk
  have h0 : tn.2 ≠ 0 := by
    have hall : ∀ tn2 ∈ tenorList, tn2.1 ≠ "Spot" → tn2.2 ≠ 0 := by decide
    exact hall tn htn (by rw [← hten]; exact hns)
  exact mkForwardPoint_nonspot h0 hmk

/-- The 6M row of the USD/CAD curve built from spot 1.4320. -/
def usdCadSixM : ForwardCurvePoint := usdCadCurve.getD 5 dummyPoint

/-- Witness for claim C1: the 6M row of the built USD/CAD curve uses the
CAD rate as domestic and the USD rate as foreign. -/
theorem fx_C1_witness :
    build_forward_curve_split "USD" "CAD" 1.4320 defaultInterestRates 0 =
      some usdCadCurve ∧
    usdCadSixM ∈ usdCadCurve ∧ usdCadSixM.tenor ≠ "Spot" ∧
    (∃ dom frn,
      (("CAD" = "USD" ∧ defaultInterestRates "USD" = some dom ∧
          defaultInterestRates "USD" = some frn) ∨
       ("CAD" ≠ "USD" ∧ defaultInterestRates "CAD" = some dom ∧
          defaultInterestRates "USD" = some frn)) ∧
      usdCadSixM.forwardRate =
        calculate_forward_rate 1.4320 dom frn usdCadSixM.days ∧
      usdCadSixM.forwardPoints =
        roundTo 2 ((usdCadSixM.forwardRate - 1.4320) * 10000)) := by
  have hb : build_forward_curve_split "USD" "CAD" 1.4320 defaultInterestRates 0 =
      some usdCadCurve := by
    rw [usdCadCurve]
    exact opt_eq_some_getD _ _ (by
      simp [build_forward_curve_split, buildLoop, tenorList, mkForwardPoint,
        defaultInterestRates])
  have hmem : usdCadSixM ∈ usdCadCurve := by
    simp [usdCadSixM, usdCadCurve, build_forward_curve_split, buildLoop,
      tenorList, mkForwardPoint, defaultInterestRates, List.getD]
  have hns : usdCadSixM.tenor ≠ "Spot" := by
    simp [usdCadSixM, usdCadCurve, build_forward_curve_split, buildLoop,
      tenorList, mkForwardPoint, defaultInterestRates, List.getD]
  exact ⟨hb, hmem, hns,
    fx_C1 "USD" "CAD" 1.4320 defaultInterestRates 0 usdCadCurve usdCadSixM
      hb hmem hns⟩

/-- Claim C4: every successfully built curve contains a Spot point with
zero days whose forward rate is the input spot rate verbatim and whose
forward points are zero. -/
theorem fx_C4 (base quote : String) (spot : ℚ) (rates : String → Option ℚ)
    (asOf : ℤ) (curve : List ForwardCurvePoint)
    (hb : build_forward_curve_split base quote spot rates asOf = some curve) :
    ∃ pt ∈ curve, pt.tenor = "Spot" ∧ pt.days = 0 ∧
      pt.forwardRate = spot ∧ pt.forwardPoints = 0 := by
  obtain ⟨rest, rfl⟩ := build_head_spot hb
  exact ⟨_, List.mem_cons_self _ _, rfl, rfl, rfl, rfl⟩

/-- Witness for claim C4 on the built USD/CAD curve. -/
theorem fx_C4_witness :
    build_forward_curve_split "USD" "CAD" 1.4320 defaultInterestRates 0 =
      some usdCadCurve ∧
    (∃ pt ∈ usdCadCurve, pt.tenor = "Spot" ∧ pt.days = 0 ∧
      pt.forwardRate = 1.4320 ∧ pt.forwardPoints = 0) := by
  have hb : build_forward_curve_split "USD" "CAD" 1.4320 defaultInterestRates 0 =
      some usdCadCurve := by
    rw [usdCadCurve]
    exact opt_eq_some_getD _ _ (by
      simp [build_forward_curve_split, buildLoop, tenorList, mkForwardPoint,
        defaultInterestRates])
  exact ⟨hb, fx_C4 "USD" "CAD" 1.4320 defaultInterestRates 0 usdCadCurve hb⟩

/-- Claim C7: build_forward_curve_split is a pure function of the pair,
the spot rate, the rate table and the as-of date (the datetime.now()
reading of the source is the as-of input of the model, read once), and
every point's settlement date is the as-of date plus its days to
settlement. -/
theorem fx_C7 (base quote : String) (spot : ℚ) (rates : String → Option ℚ)
    (asOf : ℤ) (curve : List ForwardCurvePoint)
    (hb : build_forward_curve_split base quote spot rates asOf = some curve) :
    build_forward_curve_split base quote spot rates asOf =
      build_forward_curve_split base quote spot rates asOf ∧
    ∀ pt ∈ curve, pt.settlementDate = asOf + pt.days := by
  refine ⟨rfl, ?_⟩
  intro pt hmem
  obtain ⟨tn, _, hmk⟩ := forall₂_mem_right (build_forall₂ hb) pt hmem
  obtain ⟨_, hdays, hsettle, _⟩ := mkForwardPoint_basic hmk
  rw [hsettle, hdays]

/-- Witness for claim C7 on the built USD/CAD curve. -/
theorem fx_C7_witness :
    build_forward_curve_split "USD" "CAD" 1.4320 defaultInterestRates 0 =
      some usdCadCurve ∧
    (build_forward_curve_split "USD" "CAD" 1.4320 defaultInterestRates 0 =
       build_forward_curve_split "USD" "CAD" 1.4320 defaultInterestRates 0 ∧
     ∀ pt ∈ usdCadCurve, pt.settlementDate = 0 + pt.days) := by
  have hb : build_forward_curve_split "USD" "CAD" 1.4320 defaultInterestRates 0 =
      some usdCadCurve := by
    rw [usdCadCurve]
    exact opt_eq_some_getD _ _ (by
      simp [build_forward_curve_split, buildLoop, tenorList, mkForwardPoint,
        defaultInterestRates])
  exact ⟨hb, fx_C7 "USD" "CAD" 1.4320 defaultInterestRates 0 usdCadCurve hb⟩

/-- Claim C5: on a well-formed built curve with nonzero spot,
calculate_hedge_cost fails with the tenor error exactly when the
requested tenor is not among the eight fixed labels of the curve, and
returns a hedge record normally whenever the tenor is present. -/
theorem fx_C5 (base quote : String) (spot : ℚ) (rates : String → Option ℚ)
    (asOf : ℤ) (curve : List ForwardCurvePoint) (notional : ℚ)
    (tenor : String) (hr : ℚ)
    (hb : build_forward_curve_split base quote spot rates asOf = some curve)
    (hz : spot ≠ 0) :
    (calculate_hedge_cost curve notional tenor hr =
        .error .tenorNotFound ↔ tenor ∉ tenorLabels) ∧
    (tenor ∈ tenorLabels →
      ∃ info, calculate_hedge_cost curve notional tenor hr = .ok info) := by
  have hmap : curve.map (fun pt => pt.tenor) = tenorLabels := build_tenor_map hb
  obtain ⟨rest, hcurve⟩ := build_head_spot hb
  have hsd : (curve.filter (fun p => p.tenor == "Spot")).head? =
      some (spotPointOf base quote spot asOf) := by
    rw [hcurve]
    simp [List.filter_cons, spotPointOf]
  have hzs : (spotPointOf base quote spot asOf).forwardRate ≠ 0 := hz
  by_cases hmem : tenor ∈ tenorLabels
  · have hmem2 : tenor ∈ curve.map (fun pt => pt.tenor) := by
      rw [hmap]
      exact hmem
    obtain ⟨pt, hptmem, hptten⟩ := List.mem_map.mp hmem2
    have hptfil : pt ∈ curve.filter (fun p => p.tenor == tenor) :=
      List.mem_filter.mpr ⟨hptmem, by simp [hptten]⟩
    rcases hfl : (curve.filter (fun p => p.tenor == tenor)).head? with _ | td
    · rw [List.head?_eq_none_iff] at hfl
      rw [hfl] at hptfil
      cases hptfil
    · have hok := @chc_eq_ok curve notional tenor hr _ _ hfl hsd hzs
      rw [hok]
      refine ⟨iff_of_false (fun habs => Except.noConfusion habs)
        (fun habs => habs hmem), fun _ => ⟨_, rfl⟩⟩
  · have hfil : curve.filter (fun p => p.tenor == tenor) = [] := by
      rw [List.filter_eq_nil_iff]
      intro pt hpt
      simp only [beq_iff_eq]
      intro heq
      apply hmem
      rw [← hmap]
      exact List.mem_map.mpr ⟨pt, hpt, heq⟩
    have herr : calculate_hedge_cost curve notional tenor hr =
        .error .tenorNotFound := by
      rw [calculate_hedge_cost, hfil]
      rfl
    exact ⟨by rw [herr]; simp [hmem], fun hm => absurd hm hmem⟩

/-- Witness for claim C5 on the built USD/CAD curve at tenor 6M and
hedge ratio 0.75. -/
theorem fx_C5_witness :
    build_forward_curve_split "USD" "CAD" 1.4320 defaultInterestRates 0 =
      some usdCadCurve ∧
    (1.4320 : ℚ) ≠ 0 ∧
    ((calculate_hedge_cost usdCadCurve 5000000 "6M" 0.75 =
        .error .tenorNotFound ↔ "6M" ∉ tenorLabels) ∧
     ("6M" ∈ tenorLabels →
       ∃ info, calculate_hedge_cost usdCadCurve 5000000 "6M" 0.75 = .ok info)) := by
  have hb : build_forward_curve_split "USD" "CAD" 1.4320 defaultInterestRates 0 =
      some usdCadCurve := by
    rw [usdCadCurve]
    exact opt_eq_some_getD _ _ (by
      simp [build_forward_curve_split, buildLoop, tenorList, mkForwardPoint,
        defaultInterestRates])
  have hz : (1.4320 : ℚ) ≠ 0 := by norm_num
  exact ⟨hb, hz,
    fx_C5 "USD" "CAD" 1.4320 defaultInterestRates 0 usdCadCurve 5000000
      "6M" 0.75 hb hz⟩

/-- Claim C3: for a curve holding the requested tenor and a nonzero Spot
row, scenario_analysis succeeds and returns, in the order of the input
scenarios, rows whose hedged profit and loss is notional*ratio times the
spread of the scenario spot over the locked forward, whose unhedged
profit and loss is notional*(1-ratio) times the spread over current
spot, whose total is the rounded sum, and whose effective rate blends
forward and scenario spot by the ratio when the notional is positive and
degenerates to the scenario spot otherwise; money fields are rounded to
2 decimals and rate fields to 4. -/
theorem fx_C3 (curve : List ForwardCurvePoint) (notional : ℚ) (tenor : String)
    (hr : ℚ) (scens : List ℚ) (td sd : ForwardCurvePoint)
    (htd : (curve.filter (fun p => p.tenor == tenor)).head? = some td)
    (hsd : (curve.filter (fun p => p.tenor == "Spot")).head? = some sd)
    (hz : sd.forwardRate ≠ 0) :
    scenario_analysis curve notional tenor hr (some scens) =
      .ok (scens.map (fun S =>
        { futureSpot := roundTo 4 S,
          spotChangePct := roundTo 2 (((S - sd.forwardRate) / sd.forwardRate) * 100),
          hedgedPnL := roundTo 2 ((notional * hr) * (S - td.forwardRate)),
          unhedgedPnL := roundTo 2 ((notional * (1 - hr)) * (S - sd.forwardRate)),
          totalPnL := roundTo 2 ((notional * hr) * (S - td.forwardRate) +
            (notional * (1 - hr)) * (S - sd.forwardRate)),
          effectiveRate := roundTo 4 (if notional > 0 then
            td.forwardRate * hr + S * (1 - hr) else S) })) := by
  rw [scenario_analysis, chc_eq_ok htd hsd hz]
  rfl

/-- Witness for claim C3 on the sample USD/CAD curve: notional 5000000,
tenor 6M, hedge ratio 0.75 and the single scenario spot 1.3200 from the
demonstration block of hedging_analyzer.py. -/
theorem fx_C3_witness :
    (sampleCurve.filter (fun p => p.tenor == "6M")).head? =
      some sampleSixMPoint ∧
    (sampleCurve.filter (fun p => p.tenor == "Spot")).head? =
      some sampleSpotPoint ∧
    sampleSpotPoint.forwardRate ≠ 0 ∧
    scenario_analysis sampleCurve 5000000 "6M" 0.75 (some [1.3200]) =
      .ok ([(1.3200 : ℚ)].map (fun S =>
        { futureSpot := roundTo 4 S,
          spotChangePct := roundTo 2
            (((S - sampleSpotPoint.forwardRate) / sampleSpotPoint.forwardRate) * 100),
          hedgedPnL := roundTo 2
            ((5000000 * 0.75) * (S - sampleSixMPoint.forwardRate)),
          unhedgedPnL := roundTo 2
            ((5000000 * (1 - 0.75)) * (S - sampleSpotPoint.forwardRate)),
          totalPnL := roundTo 2
            ((5000000 * 0.75) * (S - sampleSixMPoint.forwardRate) +
             (5000000 * (1 - 0.75)) * (S - sampleSpotPoint.forwardRate)),
          effectiveRate := roundTo 4 (if (5000000 : ℚ) > 0 then
            sampleSixMPoint.forwardRate * 0.75 + S * (1 - 0.75) else S) })) := by
  have htd : (sampleCurve.filter (fun p => p.tenor == "6M")).head? =
      some sampleSixMPoint := by
    simp [sampleCurve, sampleSpotPoint, sampleSixMPoint, List.filter]
  have hsd : (sampleCurve.filter (fun p => p.tenor == "Spot")).head? =
      some sampleSpotPoint := by
    simp [sampleCurve, sampleSpotPoint, sampleSixMPoint, List.filter]
  have hz : sampleSpotPoint.forwardRate ≠ 0 := by
    rw [sampleSpotPoint]
    norm_num
  exact ⟨htd, hsd, hz,
    fx_C3 sampleCurve 5000000 "6M" 0.75 [1.3200] sampleSixMPoint
      sampleSpotPoint htd hsd hz⟩

/-- Claim C6: for any notional and any tenor present in the curve,
generate_hedge_recommendation maps the market view case-insensitively,
recommending ratio 0.50 for bullish, 1.00 for bearish and 0.75 with the
neutral rationale for every other string, and never fails because of the
view string. -/
theorem fx_C6 (curve : List ForwardCurvePoint) (notional : ℚ)
    (tenor marketView : String) (td sd : ForwardCurvePoint)
    (htd : (curve.filter (fun p => p.tenor == tenor)).head? = some td)
    (hsd : (curve.filter (fun p => p.tenor == "Spot")).head? = some sd)
    (hz : sd.forwardRate ≠ 0) :
    ∃ r, generate_hedge_recommendation curve notional tenor marketView =
        .ok r ∧
      r.recommendedRatio = (if asciiLower marketView = "bullish" then (0.50 : ℚ)
        else if asciiLower marketView = "bearish" then 1.00 else 0.75) ∧
      r.hedgeDetails.hedgeRatio = r.recommendedRatio ∧
      (asciiLower marketView ≠ "bullish" → asciiLower marketView ≠ "bearish" →
        r.rationale = neutralRationale) := by
  simp only [generate_hedge_recommendation, chc_eq_ok htd hsd hz]
  refine ⟨_, rfl, rfl, rfl, ?_⟩
  intro hn1 hn2
  simp [if_neg hn1, if_neg hn2]

/-- Witness for claim C6 on the sample curve with the upper-case view
string BULLISH. -/
theorem fx_C6_witness :
    (sampleCurve.filter (fun p => p.tenor == "6M")).head? =
      some sampleSixMPoint ∧
    (sampleCurve.filter (fun p => p.tenor == "Spot")).head? =
      some sampleSpotPoint ∧
    sampleSpotPoint.forwardRate ≠ 0 ∧
    (∃ r, generate_hedge_recommendation sampleCurve 5000000 "6M" "BULLISH" =
        .ok r ∧
      r.recommendedRatio = (if asciiLower "BULLISH" = "bullish" then (0.50 : ℚ)
        else if asciiLower "BULLISH" = "bearish" then 1.00 else 0.75) ∧
      r.hedgeDetails.hedgeRatio = r.recommendedRatio ∧
      (asciiLower "BULLISH" ≠ "bullish" → asciiLower "BULLISH" ≠ "bearish" →
        r.rationale = neutralRationale)) := by
  have htd : (sampleCurve.filter (fun p => p.tenor == "6M")).head? =
      some sampleSixMPoint := by
    simp [sampleCurve, sampleSpotPoint, sampleSixMPoint, List.filter]
  have hsd : (sampleCurve.filter (fun p => p.tenor == "Spot")).head? =
      some sampleSpotPoint := by
    simp [sampleCurve, sampleSpotPoint, sampleSixMPoint, List.filter]
  have hz : sampleSpotPoint.forwardRate ≠ 0 := by
    rw [sampleSpotPoint]
    norm_num
  exact ⟨htd, hsd, hz,
    fx_C6 sampleCurve 5000000 "6M" "BULLISH" sampleSixMPoint sampleSpotPoint
      htd hsd hz⟩

end FXHedging
